import Mathlib

/-!
Verification of the module-installation pipeline in
`src-server/structor/controller.js` (functions `preInstall` and
`installFromLocalDir`).

The embedding models the controller's promise chains as a writer-style
computation: external reads (manifest JSON, component tree, directory
listings, existence checks, dependency installation) are abstract functions
packed into an `Env`, while the mutating filesystem calls
(`commons.writeFile`, `commons.removeFile`, `commons.copyFile`) are logged
into an ordered trace of `FsOp` events.  A promise chain either resolves
(`Except.ok`) or rejects with the first error (`Except.error`); `Promise.all`
loops are linearized in iteration order, which preserves the fail-fast
semantics and the accumulator threading of the source.
-/

namespace Structor

/-- Entry of a flat directory listing, as returned by
`commons.readDirectoryFlat` (`{name, path}`). -/
structure DirEntry where
  name : String
  path : String
deriving DecidableEq

/-- Result shape of `commons.readDirectoryFlat`: only the `dirs` field is
consumed by the controller.  A missing/undefined `dirs` behaves exactly like
an empty list in the `!dirs || dirs.length <= 0` checks, so it is modelled
as `[]`. -/
structure FoundFiles where
  dirs : List DirEntry
deriving DecidableEq

/-- Per-namespace metadata from `structor-namespaces.json`: the controller
only reads `reducerPropName`. -/
structure NamespaceMeta where
  reducerPropName : String
deriving DecidableEq

/-- Manifest (`structor-namespaces.json`): `namespaces` is kept as an
association list in the object's key order, which is the order `forOwn`
iterates. -/
structure Manifest where
  namespaces : List (String × NamespaceMeta)
  dependencies : List String
deriving DecidableEq

/-- Snapshot returned by `storage.getComponentTree`.  `modules` is `none`
when the field is absent (the source guards with
`componentTree.modules && ...`); otherwise it is the list of keys whose
entries are present. -/
structure ComponentTree where
  modules : Option (List String)
  reducersSourceCode : String
  sagasSourceCode : String
  indexSourceCode : String
  reducersFilePath : String
  sagasFilePath : String
  indexFilePath : String
deriving DecidableEq

/-- Keys of `ComponentTree.modules`, empty when the field is absent. -/
def ComponentTree.moduleKeys (tree : ComponentTree) : List String :=
  match tree.modules with
  | some keys => keys
  | none => []

/-- Membership of a namespace among the keys of `ComponentTree.modules`. -/
def ComponentTree.hasModuleKey (tree : ComponentTree) (n : String) : Prop :=
  n ∈ tree.moduleKeys

instance (tree : ComponentTree) (n : String) :
    Decidable (tree.hasModuleKey n) := by
  unfold ComponentTree.hasModuleKey
  infer_instance

/-- Mutating filesystem calls made by the controller. -/
inductive FsOp where
  | writeFile (filePath text : String)
  | removeFile (filePath : String)
  | copyFile (srcPath destPath : String)
deriving DecidableEq

/-- Abstract environment: the external collaborators the controller calls.
Reads are total functions returning `Except` (a rejected promise carries a
`String` reason); configuration paths are plain strings. -/
structure Env where
  readJson : String → Except String Manifest
  getComponentTree : Except String ComponentTree
  readDirectoryFlat : String → Except String FoundFiles
  isExisting : String → Except String Unit
  installDependencies : List String → Except String Unit
  appDirPath : String
  componentDefaultsDirPath : String
  docsComponentsDirPath : String

/-- Node's `path.join` on the plain relative segments used by the
controller: separator concatenation. -/
def pathJoin (a b : String) : String :=
  a ++ "/" ++ b

/-- Three-argument `path.join`. -/
def pathJoin3 (a b c : String) : String :=
  pathJoin (pathJoin a b) c

/-- One step of the pipeline: the ordered trace of mutating filesystem
operations it performed, and its resolution or rejection. -/
structure Step (α : Type) where
  trace : List FsOp
  result : Except String α

deriving instance DecidableEq for Except

instance {α : Type} [DecidableEq α] : DecidableEq (Step α) :=
  fun x y =>
    decidable_of_iff (x.trace = y.trace ∧ x.result = y.result)
      (by cases x; cases y; simp)

/-- Promise-chain sequencing: on resolution the continuation runs and its
trace is appended; a rejection short-circuits, keeping the trace so far. -/
def Step.bind {α β : Type} (x : Step α) (f : α → Step β) : Step β :=
  match x.result with
  | Except.ok a => ⟨x.trace ++ (f a).trace, (f a).result⟩
  | Except.error e => ⟨x.trace, Except.error e⟩

instance : Monad Step where
  pure a := ⟨[], Except.ok a⟩
  bind := Step.bind

/-- Lift a non-mutating external call into the pipeline. -/
def liftE {α : Type} (e : Except String α) : Step α :=
  ⟨[], e⟩

/-- Record one mutating filesystem call. -/
def emit (op : FsOp) : Step Unit :=
  ⟨[op], Except.ok ()⟩

/-- Embedding of `commons.writeFile`. -/
def writeFile (filePath text : String) : Step Unit :=
  emit (FsOp.writeFile filePath text)

/-- Embedding of `commons.removeFile`. -/
def removeFile (filePath : String) : Step Unit :=
  emit (FsOp.removeFile filePath)

/-- Embedding of `commons.copyFile`. -/
def copyFile (srcPath destPath : String) : Step Unit :=
  emit (FsOp.copyFile srcPath destPath)

/-- Modelled from the spec: `gengine.injectReducer` lives in the external
`structor-commons` package, not in this repository.  Per the spec it is a
pure text transform producing text that contains an import line pointing at
the import path and a registration entry mapping the symbol name to the
derived identifier; no dedup check is performed against existing entries. -/
def injectReducer (currentText symbolName derivedIdentifier importPath : String) :
    String :=
  currentText
    ++ "\nimport " ++ derivedIdentifier ++ " from " ++ importPath ++ ";"
    ++ "\n" ++ symbolName ++ ": " ++ derivedIdentifier ++ ","

/-- Modelled from the spec: `gengine.injectSaga` lives in the external
`structor-commons` package.  Per the spec it produces an import/reference
line pointing at the import path and a registration entry anchored only by
the import path, referencing the derived identifier (no explicit symbol
name). -/
def injectSaga (currentText derivedIdentifier importPath : String) : String :=
  currentText
    ++ "\nimport " ++ derivedIdentifier ++ " from " ++ importPath ++ ";"
    ++ "\n" ++ derivedIdentifier ++ ","

/-- Modelled from the spec: `gengine.injectNamespaceComponent` lives in the
external `structor-commons` package.  Per the spec it produces a reference
line pointing at the import path and a registration entry for the namespace
name. -/
def injectNamespaceComponent (currentText name importPath : String) : String :=
  currentText
    ++ "\nimport " ++ name ++ " from " ++ importPath ++ ";"
    ++ "\n" ++ name ++ ","

/-- Contribution of one listed module directory to the collision list of
`preInstall` (controller.js 296-300): `[module.name]` when
`componentTree.modules` is present and has a truthy entry for the name,
nothing otherwise. -/
def collectEntry (componentTree : ComponentTree) (m : DirEntry) : List String :=
  match componentTree.modules with
  | some keys => if m.name ∈ keys then [m.name] else []
  | none => []

/-- Embedding of the `modulesDirs.forEach` collision loop of `preInstall`
(controller.js 295-301): push `module.name` when `componentTree.modules`
is present and has a truthy entry for it. -/
def collectExistingNamespaceDirs (componentTree : ComponentTree) :
    List DirEntry → List String
  | [] => []
  | m :: rest =>
    collectEntry componentTree m ++ collectExistingNamespaceDirs componentTree rest

/-- Embedding of `preInstall` (controller.js 252-308) for the `dirPath` call
shape; the `url` branch of the source is an unimplemented stub.  The
manifest is read and discarded, the component tree and the `modules/`
listing are read, the empty-modules check is applied, and the collision
list is returned.  No mutating operation is emitted. -/
def preInstall (env : Env) (dirPath : String) : Step (String × List String) := do
  let namespacesSrcDirPath := dirPath
  let modulesSrcDirPath := pathJoin namespacesSrcDirPath "modules"
  let _namespacesMeta ← liftE
    (env.readJson (pathJoin namespacesSrcDirPath "structor-namespaces.json"))
  let componentTree ← liftE env.getComponentTree
  let foundFiles ← liftE (env.readDirectoryFlat modulesSrcDirPath)
  if foundFiles.dirs.length ≤ 0 then
    liftE (Except.error "Modules directory is empty")
  else
    pure (namespacesSrcDirPath,
      collectExistingNamespaceDirs componentTree foundFiles.dirs)

/-- Value held by the shared `moduleSagasFilePath` variable at the time the
rewrite tasks' `.then` closures run (controller.js 337, 340, 344): the
synchronous `forOwn` loop reassigns it on every iteration, so by the time
any closure fires it holds the sagas path of the LAST declared namespace.
For an empty manifest it keeps its initial undefined value, modelled as
`""`; no task is pushed then, so it is never consulted. -/
def lastSagasFilePath (modulesSrcDirPath : String) :
    List (String × NamespaceMeta) → String
  | [] => ""
  | [(prop, _)] => pathJoin3 modulesSrcDirPath prop "sagas.js"
  | _ :: rest => lastSagasFilePath modulesSrcDirPath rest

/-- Embedding of the `rewriteTasks` loop of `installFromLocalDir`
(controller.js 338-360), linearized in `forOwn` key order.  Each task checks
`modules/<prop>/reducer.js` — the argument of the first `isExisting` call is
evaluated synchronously at push time, so it is per-namespace — and then
checks `sagasCheckPath`: the `.then` closure of controller.js 343-345 reads
the shared `moduleSagasFilePath` variable only after the loop has finished,
so every task checks the same, last-assigned sagas path.  It then folds the
reducer and saga injections (whose closure correctly captures the
per-iteration `prop` and `value` callback parameters) into the two
accumulators.  A failed check rejects the chain. -/
def runRewriteTasks (env : Env) (modulesSrcDirPath sagasCheckPath : String) :
    List (String × NamespaceMeta) → String → String →
      Except String (String × String)
  | [], reducerCode, sagasCode => Except.ok (reducerCode, sagasCode)
  | (prop, value) :: rest, reducerCode, sagasCode => do
    let _ ← env.isExisting (pathJoin3 modulesSrcDirPath prop "reducer.js")
    let _ ← env.isExisting sagasCheckPath
    runRewriteTasks env modulesSrcDirPath sagasCheckPath rest
      (injectReducer reducerCode value.reducerPropName
        (value.reducerPropName ++ "Reducer")
        (pathJoin3 "modules" prop "reducer.js"))
      (injectSaga sagasCode (prop ++ "Sagas")
        (pathJoin3 "modules" prop "sagas.js"))

/-- Embedding of a group listing plus its empty-group check
(controller.js 369-378, 392-400 and 427-435 share this shape). -/
def readGroupDirs (env : Env) (srcDirPath errMsg : String) :
    Step (List DirEntry) := do
  let foundFiles ← liftE (env.readDirectoryFlat srcDirPath)
  if foundFiles.dirs.length ≤ 0 then
    liftE (Except.error errMsg)
  else
    pure foundFiles.dirs

/-- Embedding of the copy loops of the `modules` and `docs` groups
(controller.js 379-391 and 437-449, structurally identical), linearized in
listing order: remove the destination directory, then copy the source
directory onto it. -/
def runGroupCopyTasks (destRootPath : String) : List DirEntry → Step Unit
  | [] => pure ()
  | moduleDir :: rest => do
    let destDirPath := pathJoin destRootPath moduleDir.name
    removeFile destDirPath
    copyFile moduleDir.path destDirPath
    runGroupCopyTasks destRootPath rest

/-- Embedding of the `defaults` group copy loop (controller.js 402-426),
linearized in listing order: each copy is followed by a component-index
injection into the shared accumulator and a write-back of the accumulated
index text to the index file path. -/
def runDefaultsCopyTasks (defaultsDestDirPath indexFilePath : String) :
    List DirEntry → String → Step Unit
  | [], _ => pure ()
  | dirItem :: rest, componentsIndexSourceCode => do
    let destDirPath := pathJoin defaultsDestDirPath dirItem.name
    removeFile destDirPath
    copyFile dirItem.path destDirPath
    let updated := injectNamespaceComponent componentsIndexSourceCode
      dirItem.name (pathJoin "modules" dirItem.name)
    writeFile indexFilePath updated
    runDefaultsCopyTasks defaultsDestDirPath indexFilePath rest updated

/-- Embedding of `installFromLocalDir` (controller.js 310-450): read the
manifest, install dependencies, read the component tree, run the
per-namespace reducer existence checks, the shared last-assigned sagas
existence check and the injections, write both aggregation registries back, then
stage the `modules`, `defaults` and `docs` groups in order, each guarded by
its empty-group check. -/
def installFromLocalDir (env : Env) (dirPath : String) : Step Unit := do
  let namespacesFilePath := pathJoin dirPath "structor-namespaces.json"
  let modulesSrcDirPath := pathJoin dirPath "modules"
  let defaultsSrcDirPath := pathJoin dirPath "defaults"
  let docsSrcDirPath := pathJoin dirPath "docs"
  let modulesDestDirPath := pathJoin env.appDirPath "modules"
  let defaultsDestDirPath := env.componentDefaultsDirPath
  let docsDestDirPath := env.docsComponentsDirPath
  let namespacesMeta ← liftE (env.readJson namespacesFilePath)
  liftE (env.installDependencies namespacesMeta.dependencies)
  let componentTree ← liftE env.getComponentTree
  let injected ← liftE (runRewriteTasks env modulesSrcDirPath
    (lastSagasFilePath modulesSrcDirPath namespacesMeta.namespaces)
    namespacesMeta.namespaces
    componentTree.reducersSourceCode componentTree.sagasSourceCode)
  writeFile componentTree.reducersFilePath injected.1
  writeFile componentTree.sagasFilePath injected.2
  let modulesDirs ← readGroupDirs env modulesSrcDirPath
    "Modules directory is empty"
  runGroupCopyTasks modulesDestDirPath modulesDirs
  let defaultsDirs ← readGroupDirs env defaultsSrcDirPath
    "Defaults directory is empty"
  runDefaultsCopyTasks defaultsDestDirPath componentTree.indexFilePath
    defaultsDirs componentTree.indexSourceCode
  let docsDirs ← readGroupDirs env docsSrcDirPath "Docs directory is empty"
  runGroupCopyTasks docsDestDirPath docsDirs

/-- Two sequential calls of `preInstall` against the same environment, with
no intervening mutation; the pair of both results is returned. -/
def preInstallTwice (env : Env) (dirPath : String) :
    Step ((String × List String) × (String × List String)) := do
  let first ← preInstall env dirPath
  let second ← preInstall env dirPath
  pure (first, second)

/-- Reducer text obtained by folding one reducer injection per declared
namespace, in manifest order, with the call shape of controller.js 347-352:
symbol `reducerPropName`, derived identifier `reducerPropName ++ "Reducer"`,
and import path `modules/<prop>/reducer.js`. -/
def foldReducerInjections : List (String × NamespaceMeta) → String → String
  | [], text => text
  | (prop, value) :: rest, text =>
    foldReducerInjections rest
      (injectReducer text value.reducerPropName
        (value.reducerPropName ++ "Reducer")
        (pathJoin3 "modules" prop "reducer.js"))

/-- Saga text obtained by folding one saga injection per declared namespace,
in manifest order, with the call shape of controller.js 353-357: derived
identifier `prop ++ "Sagas"`, import path `modules/<prop>/sagas.js`. -/
def foldSagaInjections : List (String × NamespaceMeta) → String → String
  | [], text => text
  | (prop, _) :: rest, text =>
    foldSagaInjections rest
      (injectSaga text (prop ++ "Sagas") (pathJoin3 "modules" prop "sagas.js"))

/-- Expected trace of one plain copy group: per listed directory, a removal
of the destination followed by the copy. -/
def groupCopyTrace (destRootPath : String) : List DirEntry → List FsOp
  | [] => []
  | d :: rest =>
    FsOp.removeFile (pathJoin destRootPath d.name) ::
    FsOp.copyFile d.path (pathJoin destRootPath d.name) ::
    groupCopyTrace destRootPath rest

/-- Expected trace of the `defaults` group: per listed directory, removal,
copy, and immediately afterwards a write of the index file with the
accumulated injected text. -/
def defaultsStageTrace (defaultsDestDirPath indexFilePath : String) :
    List DirEntry → String → List FsOp
  | [], _ => []
  | d :: rest, indexText =>
    FsOp.removeFile (pathJoin defaultsDestDirPath d.name) ::
    FsOp.copyFile d.path (pathJoin defaultsDestDirPath d.name) ::
    FsOp.writeFile indexFilePath
      (injectNamespaceComponent indexText d.name (pathJoin "modules" d.name)) ::
    defaultsStageTrace defaultsDestDirPath indexFilePath rest
      (injectNamespaceComponent indexText d.name (pathJoin "modules" d.name))

/-- Number of `writeFile` operations in a trace that target a given path. -/
def countFileWrites (filePath : String) : List FsOp → Nat
  | [] => 0
  | FsOp.writeFile p _ :: rest =>
    (if p = filePath then 1 else 0) + countFileWrites filePath rest
  | FsOp.removeFile _ :: rest => countFileWrites filePath rest
  | FsOp.copyFile _ _ :: rest => countFileWrites filePath rest

/-- Number of positions of a character list at which a pattern occurs. -/
def countSublistOccurrences (pattern : List Char) : List Char → Nat
  | [] => 0
  | c :: rest =>
    (if pattern.isPrefixOf (c :: rest) then 1 else 0) +
      countSublistOccurrences pattern rest

/-- Number of (possibly overlapping) occurrences of a pattern string inside
a text string. -/
def countOccurrences (text pattern : String) : Nat :=
  countSublistOccurrences pattern.data text.data

/-- Concrete witness environment builder: manifest, tree and the three group
listings of a bundle rooted at `bundle`, with all external calls succeeding. -/
def mkEnv (manifest : Manifest) (tree : ComponentTree)
    (modulesDirs defaultsDirs docsDirs : List DirEntry) : Env :=
  { readJson := fun _ => Except.ok manifest
  , getComponentTree := Except.ok tree
  , readDirectoryFlat := fun p =>
      if p = pathJoin "bundle" "modules" then Except.ok ⟨modulesDirs⟩
      else if p = pathJoin "bundle" "defaults" then Except.ok ⟨defaultsDirs⟩
      else if p = pathJoin "bundle" "docs" then Except.ok ⟨docsDirs⟩
      else Except.error "IOError"
  , isExisting := fun _ => Except.ok ()
  , installDependencies := fun _ => Except.ok ()
  , appDirPath := "app"
  , componentDefaultsDirPath := "app/defaults"
  , docsComponentsDirPath := "app/docs" }

/-- Manifest of the end-to-end scenario: one namespace `auth` with
`reducerPropName` `auth` and no dependencies. -/
def authManifest : Manifest :=
  { namespaces := [("auth", { reducerPropName := "auth" })]
  , dependencies := [] }

/-- Project tree of the end-to-end scenario: empty `modules` map, empty
aggregation texts, three distinct aggregation file paths. -/
def emptyTree : ComponentTree :=
  { modules := some []
  , reducersSourceCode := ""
  , sagasSourceCode := ""
  , indexSourceCode := ""
  , reducersFilePath := "app/reducers.js"
  , sagasFilePath := "app/sagas.js"
  , indexFilePath := "app/components/index.js" }

/-- Bundle listing entry for `modules/auth`. -/
def authModulesDir : DirEntry :=
  { name := "auth", path := "bundle/modules/auth" }

/-- Bundle listing entry for `defaults/auth`. -/
def authDefaultsDir : DirEntry :=
  { name := "auth", path := "bundle/defaults/auth" }

/-- Bundle listing entry for `defaults/chat`. -/
def chatDefaultsDir : DirEntry :=
  { name := "chat", path := "bundle/defaults/chat" }

/-- Bundle listing entry for `docs/auth`. -/
def authDocsDir : DirEntry :=
  { name := "auth", path := "bundle/docs/auth" }

/-- Fully successful single-namespace install environment. -/
def envInstallOk : Env :=
  mkEnv authManifest emptyTree [authModulesDir] [authDefaultsDir] [authDocsDir]

/-- Successful environment whose bundle has two `defaults/` subdirectories. -/
def envTwoDefaults : Env :=
  mkEnv authManifest emptyTree [authModulesDir]
    [authDefaultsDir, chatDefaultsDir] [authDocsDir]

/-- Environment whose bundle has an empty `defaults/` directory. -/
def envDefaultsEmpty : Env :=
  mkEnv authManifest emptyTree [authModulesDir] [] [authDocsDir]

/-- Environment whose bundle has an empty `modules/` directory. -/
def envModulesEmpty : Env :=
  mkEnv authManifest emptyTree [] [authDefaultsDir] [authDocsDir]

/-- Environment whose dependency installation fails. -/
def envDepsFail : Env :=
  { envInstallOk with
      installDependencies := fun _ => Except.error "DependencyInstallFailed" }

/-- Environment in which `modules/auth/sagas.js` does not exist in the
bundle. -/
def envMissingSagas : Env :=
  { envInstallOk with
      isExisting := fun p =>
        if p = pathJoin3 (pathJoin "bundle" "modules") "auth" "sagas.js" then
          Except.error "Not found"
        else
          Except.ok () }

/-- Manifest declaring two namespaces, `auth` then `chat`, in that key
order. -/
def twoNsManifest : Manifest :=
  { namespaces := [("auth", { reducerPropName := "auth" }),
      ("chat", { reducerPropName := "chat" })]
  , dependencies := [] }

/-- Bundle listing entry for `modules/chat`. -/
def chatModulesDir : DirEntry :=
  { name := "chat", path := "bundle/modules/chat" }

/-- Two-namespace bundle environment in which only `modules/auth/sagas.js`
is missing; every other existence check passes. -/
def envMissingFirstSagas : Env :=
  { mkEnv twoNsManifest emptyTree [authModulesDir, chatModulesDir]
      [authDefaultsDir, chatDefaultsDir] [authDocsDir] with
    isExisting := fun p =>
      if p = pathJoin3 (pathJoin "bundle" "modules") "auth" "sagas.js" then
        Except.error "Not found"
      else
        Except.ok () }

/-- Project tree whose `modules` map has keys `auth` and `core`. -/
def indexedTree : ComponentTree :=
  { emptyTree with modules := some ["auth", "core"] }

/-- Bundle listing entry for `modules/extra`. -/
def extraModulesDir : DirEntry :=
  { name := "extra", path := "bundle/modules/extra" }

/-- Dry-run environment: bundle modules `auth` and `extra`, project index
keys `auth` and `core`. -/
def envCollision : Env :=
  mkEnv authManifest indexedTree [authModulesDir, extraModulesDir]
    [authDefaultsDir] [authDocsDir]

/-- Manifest that differs from `authManifest` in every field. -/
def otherManifest : Manifest :=
  { namespaces := [("chat", { reducerPropName := "chatState" })]
  , dependencies := ["redux-saga"] }

/-- Same environment as `envCollision` except for the manifest content. -/
def envCollisionOtherManifest : Env :=
  mkEnv otherManifest indexedTree [authModulesDir, extraModulesDir]
    [authDefaultsDir] [authDocsDir]

/-- Reducer-aggregation text after the single `auth` injection of the
end-to-end scenario. -/
def authReducerText : String :=
  injectReducer emptyTree.reducersSourceCode "auth" "authReducer"
    (pathJoin3 "modules" "auth" "reducer.js")

/-- Side-effect-aggregation text after the single `auth` injection of the
end-to-end scenario. -/
def authSagasText : String :=
  injectSaga emptyTree.sagasSourceCode "authSagas"
    (pathJoin3 "modules" "auth" "sagas.js")

@[simp]
theorem bind_eq_bind {α β : Type} (x : Step α) (f : α → Step β) :
    x >>= f = Step.bind x f :=
  rfl

@[simp]
theorem pure_eq_mk {α : Type} (a : α) :
    (pure a : Step α) = ⟨[], Except.ok a⟩ :=
  rfl

@[simp]
theorem Step.bind_ok {α β : Type} (tr : List FsOp) (a : α) (f : α → Step β) :
    Step.bind ⟨tr, Except.ok a⟩ f = ⟨tr ++ (f a).trace, (f a).result⟩ :=
  rfl

@[simp]
theorem Step.bind_err {α β : Type} (tr : List FsOp) (e : String)
    (f : α → Step β) :
    Step.bind ⟨tr, Except.error e⟩ f = ⟨tr, Except.error e⟩ :=
  rfl

@[simp]
theorem liftE_eq_mk {α : Type} (e : Except String α) :
    liftE e = ⟨[], e⟩ :=
  rfl

@[simp]
theorem emit_eq_mk (op : FsOp) :
    emit op = ⟨[op], Except.ok ()⟩ :=
  rfl

@[simp]
theorem writeFile_eq_mk (filePath text : String) :
    writeFile filePath text = ⟨[FsOp.writeFile filePath text], Except.ok ()⟩ :=
  rfl

@[simp]
theorem removeFile_eq_mk (filePath : String) :
    removeFile filePath = ⟨[FsOp.removeFile filePath], Except.ok ()⟩ :=
  rfl

@[simp]
theorem copyFile_eq_mk (srcPath destPath : String) :
    copyFile srcPath destPath =
      ⟨[FsOp.copyFile srcPath destPath], Except.ok ()⟩ :=
  rfl

theorem runGroupCopyTasks_eq (destRootPath : String) (dirs : List DirEntry) :
    runGroupCopyTasks destRootPath dirs =
      ⟨groupCopyTrace destRootPath dirs, Except.ok ()⟩ := by
  induction dirs with
  | nil => rfl
  | cons d rest ih =>
    simp [runGroupCopyTasks, groupCopyTrace, ih]

theorem runDefaultsCopyTasks_eq (defaultsDestDirPath indexFilePath : String)
    (dirs : List DirEntry) (indexText : String) :
    runDefaultsCopyTasks defaultsDestDirPath indexFilePath dirs indexText =
      ⟨defaultsStageTrace defaultsDestDirPath indexFilePath dirs indexText,
        Except.ok ()⟩ := by
  induction dirs generalizing indexText with
  | nil => rfl
  | cons d rest ih =>
    simp [runDefaultsCopyTasks, defaultsStageTrace, ih]

theorem runRewriteTasks_all_ok (env : Env)
    (modulesSrcDirPath sagasCheckPath : String)
    (namespaces : List (String × NamespaceMeta))
    (reducerCode sagasCode : String)
    (hex : ∀ p, env.isExisting p = Except.ok ()) :
    runRewriteTasks env modulesSrcDirPath sagasCheckPath namespaces
      reducerCode sagasCode =
      Except.ok (foldReducerInjections namespaces reducerCode,
        foldSagaInjections namespaces sagasCode) := by
  induction namespaces generalizing reducerCode sagasCode with
  | nil => rfl
  | cons nsEntry rest ih =>
    obtain ⟨prop, value⟩ := nsEntry
    simp [runRewriteTasks, foldReducerInjections, foldSagaInjections, hex, ih,
      Except.bind, Bind.bind]

theorem installFromLocalDir_success (env : Env) (dirPath : String)
    (meta : Manifest) (tree : ComponentTree)
    (mfound dfound docfound : FoundFiles)
    (hjson : env.readJson (pathJoin dirPath "structor-namespaces.json") =
      Except.ok meta)
    (hdeps : env.installDependencies meta.dependencies = Except.ok ())
    (htree : env.getComponentTree = Except.ok tree)
    (hex : ∀ p, env.isExisting p = Except.ok ())
    (hmod : env.readDirectoryFlat (pathJoin dirPath "modules") =
      Except.ok mfound)
    (hmne : mfound.dirs ≠ [])
    (hdef : env.readDirectoryFlat (pathJoin dirPath "defaults") =
      Except.ok dfound)
    (hdne : dfound.dirs ≠ [])
    (hdoc : env.readDirectoryFlat (pathJoin dirPath "docs") =
      Except.ok docfound)
    (hdocne : docfound.dirs ≠ []) :
    installFromLocalDir env dirPath =
      ⟨FsOp.writeFile tree.reducersFilePath
          (foldReducerInjections meta.namespaces tree.reducersSourceCode) ::
        FsOp.writeFile tree.sagasFilePath
          (foldSagaInjections meta.namespaces tree.sagasSourceCode) ::
        (groupCopyTrace (pathJoin env.appDirPath "modules") mfound.dirs ++
          defaultsStageTrace env.componentDefaultsDirPath tree.indexFilePath
            dfound.dirs tree.indexSourceCode ++
          groupCopyTrace env.docsComponentsDirPath docfound.dirs),
        Except.ok ()⟩ := by
  unfold installFromLocalDir readGroupDirs
  simp [hjson, hdeps, htree, hmod, hdef, hdoc, hmne, hdne, hdocne,
    runRewriteTasks_all_ok env (pathJoin dirPath "modules")
      (lastSagasFilePath (pathJoin dirPath "modules") meta.namespaces)
      meta.namespaces tree.reducersSourceCode tree.sagasSourceCode hex,
    runGroupCopyTasks_eq, runDefaultsCopyTasks_eq,
    Nat.le_zero, List.length_eq_zero]

theorem mem_collectExistingNamespaceDirs (tree : ComponentTree)
    (dirs : List DirEntry) (n : String) :
    n ∈ collectExistingNamespaceDirs tree dirs ↔
      ((∃ d ∈ dirs, d.name = n) ∧ tree.hasModuleKey n) := by
  induction dirs with
  | nil => simp [collectExistingNamespaceDirs]
  | cons d rest ih =>
    unfold collectExistingNamespaceDirs
    cases hm : tree.modules with
    | none =>
      have hkeys : tree.moduleKeys = [] := by
        simp [ComponentTree.moduleKeys, hm]
      have hentry : collectEntry tree d = [] := by
        simp [collectEntry, hm]
      rw [hentry]
      constructor
      · intro h
        rw [List.nil_append] at h
        rcases (ih.mp h) with ⟨_, hkey⟩
        rw [ComponentTree.hasModuleKey, hkeys] at hkey
        exact absurd hkey (List.not_mem_nil n)
      · rintro ⟨_, hkey⟩
        rw [ComponentTree.hasModuleKey, hkeys] at hkey
        exact absurd hkey (List.not_mem_nil n)
    | some keys =>
      have hkeys : tree.moduleKeys = keys := by
        simp [ComponentTree.moduleKeys, hm]
      have hentry : collectEntry tree d =
          if d.name ∈ keys then [d.name] else [] := by
        simp [collectEntry, hm]
      by_cases hk : d.name ∈ keys
      · rw [hentry, if_pos hk]
        constructor
        · intro h
          rcases List.mem_append.mp h with h1 | h2
          · rcases List.mem_singleton.mp h1 with rfl
            refine ⟨⟨d, List.mem_cons_self d rest, rfl⟩, ?_⟩
            rw [ComponentTree.hasModuleKey, hkeys]
            exact hk
          · rcases ih.mp h2 with ⟨⟨d', hd', hname⟩, hkey⟩
            exact ⟨⟨d', List.mem_cons_of_mem d hd', hname⟩, hkey⟩
        · rintro ⟨⟨d', hd', rfl⟩, hkey⟩
          rcases List.mem_cons.mp hd' with rfl | hd'
          · exact List.mem_append.mpr (Or.inl (List.mem_singleton.mpr rfl))
          · exact List.mem_append.mpr (Or.inr (ih.mpr ⟨⟨d', hd', rfl⟩, hkey⟩))
      · rw [hentry, if_neg hk, List.nil_append]
        constructor
        · intro h
          rcases ih.mp h with ⟨⟨d', hd', hname⟩, hkey⟩
          exact ⟨⟨d', List.mem_cons_of_mem d hd', hname⟩, hkey⟩
        · rintro ⟨⟨d', hd', rfl⟩, hkey⟩
          rcases List.mem_cons.mp hd' with rfl | hd'
          · rw [ComponentTree.hasModuleKey, hkeys] at hkey
            exact absurd hkey hk
          · exact ih.mpr ⟨⟨d', hd', rfl⟩, hkey⟩

theorem preInstall_eq_of_reads (env : Env) (dirPath : String)
    (meta : Manifest) (tree : ComponentTree) (found : FoundFiles)
    (hjson : env.readJson (pathJoin dirPath "structor-namespaces.json") =
      Except.ok meta)
    (htree : env.getComponentTree = Except.ok tree)
    (hdir : env.readDirectoryFlat (pathJoin dirPath "modules") =
      Except.ok found)
    (hne : found.dirs ≠ []) :
    preInstall env dirPath =
      ⟨[], Except.ok (dirPath,
        collectExistingNamespaceDirs tree found.dirs)⟩ := by
  unfold preInstall
  simp [hjson, htree, hdir, hne, Nat.le_zero, List.length_eq_zero]

/-- C1: for every project index and every bundle whose manifest, component
tree and `modules/` listing are readable and whose listing is nonempty,
`preInstall` resolves with an `existingNamespaceDirs` list such that a
namespace `n` is in the list exactly when `n` is the name of a listed
immediate subdirectory of the bundle's `modules/` directory and `n` is a key
of the project index's `modules` map; in particular a namespace absent from
the index is never in the list. -/
theorem preInstall_collision_detection (env : Env) (dirPath : String)
    (meta : Manifest) (tree : ComponentTree) (found : FoundFiles)
    (hjson : env.readJson (pathJoin dirPath "structor-namespaces.json") =
      Except.ok meta)
    (htree : env.getComponentTree = Except.ok tree)
    (hdir : env.readDirectoryFlat (pathJoin dirPath "modules") =
      Except.ok found)
    (hne : found.dirs ≠ []) :
    ∃ existing,
      (preInstall env dirPath).result = Except.ok (dirPath, existing) ∧
      ∀ n : String, n ∈ existing ↔
        ((∃ d ∈ found.dirs, d.name = n) ∧ tree.hasModuleKey n) := by
  refine ⟨collectExistingNamespaceDirs tree found.dirs, ?_, ?_⟩
  · rw [preInstall_eq_of_reads env dirPath meta tree found hjson htree hdir hne]
  · exact fun n => mem_collectExistingNamespaceDirs tree found.dirs n

/-- C1 witness: bundle modules `auth` and `extra`, index keys `auth` and
`core`; the returned list is exactly `[auth]`. -/
theorem preInstall_collision_detection_witness :
    ∃ existing,
      (preInstall envCollision "bundle").result =
        Except.ok ("bundle", existing) ∧
      ∀ n : String, n ∈ existing ↔
        ((∃ d ∈ [authModulesDir, extraModulesDir], d.name = n) ∧
          indexedTree.hasModuleKey n) :=
  preInstall_collision_detection envCollision "bundle" authManifest
    indexedTree ⟨[authModulesDir, extraModulesDir]⟩ rfl rfl (by decide)
    (by decide)

theorem preInstall_trace_nil (env : Env) (dirPath : String) :
    (preInstall env dirPath).trace = [] := by
  unfold preInstall
  rcases hj : env.readJson (pathJoin dirPath "structor-namespaces.json")
    with e | meta
  · simp [hj]
  · rcases ht : env.getComponentTree with e | tree
    · simp [hj, ht]
    · rcases hd : env.readDirectoryFlat (pathJoin dirPath "modules")
        with e | found
      · simp [hj, ht, hd]
      · simp [hj, ht, hd]
        split <;> rfl

/-- C5: `preInstall` is a pure dry-run: for every environment it emits no
mutating filesystem operation, and running it twice in a row with no
intervening mutation yields a pair of identical results (the second run is
against the same environment precisely because the first performed no
writes). -/
theorem preInstall_dry_run_purity (env : Env) (dirPath : String) :
    (preInstall env dirPath).trace = [] ∧
    preInstallTwice env dirPath =
      ⟨[], Except.map (fun r => (r, r)) (preInstall env dirPath).result⟩ := by
  refine ⟨preInstall_trace_nil env dirPath, ?_⟩
  unfold preInstallTwice
  rcases hp : preInstall env dirPath with ⟨tr, res⟩
  have htr : tr = [] := by
    have h0 := preInstall_trace_nil env dirPath
    rw [hp] at h0
    exact h0
  subst htr
  rcases res with e | r <;> simp [hp, Except.map]

/-- C8: the result of `preInstall` does not depend on the manifest content:
two environments returning different successfully parsed manifests but the
same component tree and the same `modules/` listing produce the same
`preInstall` outcome (same `namespacesSrcDirPath`, same
`existingNamespaceDirs`, and no trace either way). -/
theorem preInstall_manifest_independent (env1 env2 : Env) (dirPath : String)
    (m1 m2 : Manifest)
    (h1 : env1.readJson (pathJoin dirPath "structor-namespaces.json") =
      Except.ok m1)
    (h2 : env2.readJson (pathJoin dirPath "structor-namespaces.json") =
      Except.ok m2)
    (htree : env1.getComponentTree = env2.getComponentTree)
    (hdir : env1.readDirectoryFlat (pathJoin dirPath "modules") =
      env2.readDirectoryFlat (pathJoin dirPath "modules")) :
    preInstall env1 dirPath = preInstall env2 dirPath := by
  unfold preInstall
  simp [h1, h2, htree, hdir]

/-- C8 witness: `envCollision` and `envCollisionOtherManifest` differ only
in the manifest and agree on the `preInstall` outcome. -/
theorem preInstall_manifest_independent_witness :
    preInstall envCollision "bundle" =
      preInstall envCollisionOtherManifest "bundle" :=
  preInstall_manifest_independent envCollision envCollisionOtherManifest
    "bundle" authManifest otherManifest rfl rfl rfl rfl

/-- C4: when the dependency-installation call fails, `installFromLocalDir`
aborts with that failure before any file mutation: the trace is empty, so no
aggregation file was written and no bundle directory was copied or
removed. -/
theorem install_dependency_failure_aborts (env : Env) (dirPath : String)
    (meta : Manifest) (e : String)
    (hjson : env.readJson (pathJoin dirPath "structor-namespaces.json") =
      Except.ok meta)
    (hdeps : env.installDependencies meta.dependencies = Except.error e) :
    installFromLocalDir env dirPath = ⟨[], Except.error e⟩ := by
  unfold installFromLocalDir
  simp [hjson, hdeps]

/-- C4 witness: a failing dependency installation leaves an empty trace and
surfaces the failure. -/
theorem install_dependency_failure_aborts_witness :
    installFromLocalDir envDepsFail "bundle" =
      ⟨[], Except.error "DependencyInstallFailed"⟩ :=
  install_dependency_failure_aborts envDepsFail "bundle" authManifest
    "DependencyInstallFailed" rfl rfl

theorem runRewriteTasks_error (env : Env)
    (modulesSrcDirPath sagasCheckPath : String)
    (namespaces : List (String × NamespaceMeta))
    (reducerCode sagasCode : String)
    (hfail : (∃ nsEntry ∈ namespaces, ∃ e,
        env.isExisting
          (pathJoin3 modulesSrcDirPath nsEntry.1 "reducer.js") =
          Except.error e) ∨
      (namespaces ≠ [] ∧ ∃ e,
        env.isExisting sagasCheckPath = Except.error e)) :
    ∃ e, runRewriteTasks env modulesSrcDirPath sagasCheckPath namespaces
      reducerCode sagasCode = Except.error e := by
  induction namespaces generalizing reducerCode sagasCode with
  | nil =>
    rcases hfail with ⟨_, hmem, _⟩ | ⟨hne, _⟩
    · exact absurd hmem (List.not_mem_nil _)
    · exact absurd rfl hne
  | cons nsEntry rest ih =>
    obtain ⟨prop, value⟩ := nsEntry
    rcases hr : env.isExisting (pathJoin3 modulesSrcDirPath prop "reducer.js")
      with e | u
    · exact ⟨e, by simp [runRewriteTasks, hr, Except.bind, Bind.bind]⟩
    · rcases hs : env.isExisting sagasCheckPath with e | u'
      · exact ⟨e, by simp [runRewriteTasks, hr, hs, Except.bind, Bind.bind]⟩
      · have hfail' : ∃ nsEntry ∈ rest, ∃ e,
            env.isExisting
              (pathJoin3 modulesSrcDirPath nsEntry.1 "reducer.js") =
              Except.error e := by
          rcases hfail with ⟨x, hx, e, he⟩ | ⟨-, e, he⟩
          · rcases List.mem_cons.mp hx with rfl | hx'
            · rw [hr] at he
              exact absurd he (by simp)
            · exact ⟨x, hx', e, he⟩
          · rw [hs] at he
            exact absurd he (by simp)
        rcases ih (injectReducer reducerCode value.reducerPropName
              (value.reducerPropName ++ "Reducer")
              (pathJoin3 "modules" prop "reducer.js"))
            (injectSaga sagasCode (prop ++ "Sagas")
              (pathJoin3 "modules" prop "sagas.js")) (Or.inl hfail')
          with ⟨e, he⟩
        exact ⟨e, by simp [runRewriteTasks, hr, hs, he, Except.bind,
          Bind.bind]⟩

/-- C9 counterexample: a bundle declaring namespaces `auth` then `chat`
where only `modules/auth/sagas.js` is missing.  The claim requires the
whole install to reject, but the run succeeds end to end: the sagas
existence check of controller.js 344 reads the shared
`moduleSagasFilePath` variable after the synchronous loop finished, so only
`modules/chat/sagas.js` is ever checked and the missing `auth` sagas file
goes unnoticed. -/
theorem install_nonlast_missing_sagas_counterexample :
    ("auth", { reducerPropName := "auth" : NamespaceMeta }) ∈
      twoNsManifest.namespaces ∧
    envMissingFirstSagas.isExisting
        (pathJoin3 (pathJoin "bundle" "modules") "auth" "sagas.js") =
      Except.error "Not found" ∧
    (installFromLocalDir envMissingFirstSagas "bundle").result =
      Except.ok () := by
  decide

/-- C9 (amended): the install requires `modules/<namespace>/reducer.js` to
exist for every declared namespace, but — because the `.then` closure of
controller.js 343-345 reads the loop variable `moduleSagasFilePath` after
the synchronous `forOwn` has finished — the only sagas file ever checked is
the last declared namespace's `modules/<last>/sagas.js`.  If any declared
namespace's reducer check fails, or the manifest is nonempty and the check
of that last sagas path fails, the whole install rejects with an empty
trace, so in particular neither the reducer registry file nor the
side-effect registry file is written. -/
theorem install_failed_existence_check_rejects (env : Env) (dirPath : String)
    (meta : Manifest) (tree : ComponentTree)
    (hjson : env.readJson (pathJoin dirPath "structor-namespaces.json") =
      Except.ok meta)
    (hdeps : env.installDependencies meta.dependencies = Except.ok ())
    (htree : env.getComponentTree = Except.ok tree)
    (hfail : (∃ nsEntry ∈ meta.namespaces, ∃ e,
        env.isExisting
          (pathJoin3 (pathJoin dirPath "modules") nsEntry.1 "reducer.js") =
          Except.error e) ∨
      (meta.namespaces ≠ [] ∧ ∃ e,
        env.isExisting
          (lastSagasFilePath (pathJoin dirPath "modules")
            meta.namespaces) =
          Except.error e)) :
    (∃ e, (installFromLocalDir env dirPath).result = Except.error e) ∧
    (installFromLocalDir env dirPath).trace = [] := by
  rcases runRewriteTasks_error env (pathJoin dirPath "modules")
    (lastSagasFilePath (pathJoin dirPath "modules") meta.namespaces)
    meta.namespaces tree.reducersSourceCode tree.sagasSourceCode hfail
    with ⟨e, he⟩
  have heq : installFromLocalDir env dirPath = ⟨[], Except.error e⟩ := by
    unfold installFromLocalDir
    simp [hjson, hdeps, htree, he]
  rw [heq]
  exact ⟨⟨e, rfl⟩, rfl⟩

/-- C9 (amended) witness: a single declared namespace `auth` (hence the
last one) whose `sagas.js` is missing; the install rejects with an empty
trace. -/
theorem install_failed_existence_check_rejects_witness :
    (∃ e, (installFromLocalDir envMissingSagas "bundle").result =
      Except.error e) ∧
    (installFromLocalDir envMissingSagas "bundle").trace = [] :=
  install_failed_existence_check_rejects envMissingSagas "bundle"
    authManifest emptyTree rfl rfl rfl
    (Or.inr ⟨by decide, "Not found", by decide⟩)

theorem install_modules_empty_eq (env : Env) (dirPath : String)
    (meta : Manifest) (tree : ComponentTree) (mfound : FoundFiles)
    (hjson : env.readJson (pathJoin dirPath "structor-namespaces.json") =
      Except.ok meta)
    (hdeps : env.installDependencies meta.dependencies = Except.ok ())
    (htree : env.getComponentTree = Except.ok tree)
    (hex : ∀ p, env.isExisting p = Except.ok ())
    (hmod : env.readDirectoryFlat (pathJoin dirPath "modules") =
      Except.ok mfound)
    (hempty : mfound.dirs = []) :
    installFromLocalDir env dirPath =
      ⟨[FsOp.writeFile tree.reducersFilePath
          (foldReducerInjections meta.namespaces tree.reducersSourceCode),
        FsOp.writeFile tree.sagasFilePath
          (foldSagaInjections meta.namespaces tree.sagasSourceCode)],
        Except.error "Modules directory is empty"⟩ := by
  unfold installFromLocalDir readGroupDirs
  simp [hjson, hdeps, htree, hmod, hempty,
    runRewriteTasks_all_ok env (pathJoin dirPath "modules")
      (lastSagasFilePath (pathJoin dirPath "modules") meta.namespaces)
      meta.namespaces tree.reducersSourceCode tree.sagasSourceCode hex]

theorem install_defaults_empty_eq (env : Env) (dirPath : String)
    (meta : Manifest) (tree : ComponentTree) (mfound dfound : FoundFiles)
    (hjson : env.readJson (pathJoin dirPath "structor-namespaces.json") =
      Except.ok meta)
    (hdeps : env.installDependencies meta.dependencies = Except.ok ())
    (htree : env.getComponentTree = Except.ok tree)
    (hex : ∀ p, env.isExisting p = Except.ok ())
    (hmod : env.readDirectoryFlat (pathJoin dirPath "modules") =
      Except.ok mfound)
    (hmne : mfound.dirs ≠ [])
    (hdef : env.readDirectoryFlat (pathJoin dirPath "defaults") =
      Except.ok dfound)
    (hdempty : dfound.dirs = []) :
    installFromLocalDir env dirPath =
      ⟨FsOp.writeFile tree.reducersFilePath
          (foldReducerInjections meta.namespaces tree.reducersSourceCode) ::
        FsOp.writeFile tree.sagasFilePath
          (foldSagaInjections meta.namespaces tree.sagasSourceCode) ::
        groupCopyTrace (pathJoin env.appDirPath "modules") mfound.dirs,
        Except.error "Defaults directory is empty"⟩ := by
  unfold installFromLocalDir readGroupDirs
  simp [hjson, hdeps, htree, hmod, hmne, hdef, hdempty,
    runRewriteTasks_all_ok env (pathJoin dirPath "modules")
      (lastSagasFilePath (pathJoin dirPath "modules") meta.namespaces)
      meta.namespaces tree.reducersSourceCode tree.sagasSourceCode hex,
    runGroupCopyTasks_eq, Nat.le_zero, List.length_eq_zero]

theorem install_docs_empty_eq (env : Env) (dirPath : String)
    (meta : Manifest) (tree : ComponentTree)
    (mfound dfound docfound : FoundFiles)
    (hjson : env.readJson (pathJoin dirPath "structor-namespaces.json") =
      Except.ok meta)
    (hdeps : env.installDependencies meta.dependencies = Except.ok ())
    (htree : env.getComponentTree = Except.ok tree)
    (hex : ∀ p, env.isExisting p = Except.ok ())
    (hmod : env.readDirectoryFlat (pathJoin dirPath "modules") =
      Except.ok mfound)
    (hmne : mfound.dirs ≠ [])
    (hdef : env.readDirectoryFlat (pathJoin dirPath "defaults") =
      Except.ok dfound)
    (hdne : dfound.dirs ≠ [])
    (hdoc : env.readDirectoryFlat (pathJoin dirPath "docs") =
      Except.ok docfound)
    (hdocempty : docfound.dirs = []) :
    installFromLocalDir env dirPath =
      ⟨FsOp.writeFile tree.reducersFilePath
          (foldReducerInjections meta.namespaces tree.reducersSourceCode) ::
        FsOp.writeFile tree.sagasFilePath
          (foldSagaInjections meta.namespaces tree.sagasSourceCode) ::
        (groupCopyTrace (pathJoin env.appDirPath "modules") mfound.dirs ++
          defaultsStageTrace env.componentDefaultsDirPath tree.indexFilePath
            dfound.dirs tree.indexSourceCode),
        Except.error "Docs directory is empty"⟩ := by
  unfold installFromLocalDir readGroupDirs
  simp [hjson, hdeps, htree, hmod, hmne, hdef, hdne, hdoc, hdocempty,
    runRewriteTasks_all_ok env (pathJoin dirPath "modules")
      (lastSagasFilePath (pathJoin dirPath "modules") meta.namespaces)
      meta.namespaces tree.reducersSourceCode tree.sagasSourceCode hex,
    runGroupCopyTasks_eq, runDefaultsCopyTasks_eq,
    Nat.le_zero, List.length_eq_zero]

theorem copy_mem_groupCopyTrace (destRootPath : String)
    (dirs : List DirEntry) (d : DirEntry) (hd : d ∈ dirs) :
    FsOp.copyFile d.path (pathJoin destRootPath d.name) ∈
      groupCopyTrace destRootPath dirs := by
  induction dirs with
  | nil => exact absurd hd (List.not_mem_nil d)
  | cons d0 rest ih =>
    rcases List.mem_cons.mp hd with rfl | hd'
    · simp [groupCopyTrace]
    · simp [groupCopyTrace, ih hd']

theorem copy_mem_defaultsStageTrace (destRootPath indexFilePath : String)
    (dirs : List DirEntry) (indexText : String) (d : DirEntry)
    (hd : d ∈ dirs) :
    FsOp.copyFile d.path (pathJoin destRootPath d.name) ∈
      defaultsStageTrace destRootPath indexFilePath dirs indexText := by
  induction dirs generalizing indexText with
  | nil => exact absurd hd (List.not_mem_nil d)
  | cons d0 rest ih =>
    rcases List.mem_cons.mp hd with rfl | hd'
    · simp [defaultsStageTrace]
    · simp [defaultsStageTrace, ih _ hd']

/-- C10: when `installFromLocalDir` fails because the bundle's `modules/`
directory has zero subdirectories, both registry files have already been
written, with the injected entries, before the failure: the final state is
exactly the two registry writes followed by the `Modules directory is
empty` rejection. -/
theorem install_empty_modules_after_registry_writes (env : Env)
    (dirPath : String) (meta : Manifest) (tree : ComponentTree)
    (mfound : FoundFiles)
    (hjson : env.readJson (pathJoin dirPath "structor-namespaces.json") =
      Except.ok meta)
    (hdeps : env.installDependencies meta.dependencies = Except.ok ())
    (htree : env.getComponentTree = Except.ok tree)
    (hex : ∀ p, env.isExisting p = Except.ok ())
    (hmod : env.readDirectoryFlat (pathJoin dirPath "modules") =
      Except.ok mfound)
    (hempty : mfound.dirs = []) :
    (installFromLocalDir env dirPath).result =
      Except.error "Modules directory is empty" ∧
    (installFromLocalDir env dirPath).trace =
      [FsOp.writeFile tree.reducersFilePath
          (foldReducerInjections meta.namespaces tree.reducersSourceCode),
        FsOp.writeFile tree.sagasFilePath
          (foldSagaInjections meta.namespaces tree.sagasSourceCode)] := by
  rw [install_modules_empty_eq env dirPath meta tree mfound hjson hdeps htree
    hex hmod hempty]
  exact ⟨rfl, rfl⟩

/-- C10 witness: empty bundle `modules/` directory; both registry writes are
on the trace, then the empty-modules rejection. -/
theorem install_empty_modules_after_registry_writes_witness :
    (installFromLocalDir envModulesEmpty "bundle").result =
      Except.error "Modules directory is empty" ∧
    (installFromLocalDir envModulesEmpty "bundle").trace =
      [FsOp.writeFile emptyTree.reducersFilePath
          (foldReducerInjections authManifest.namespaces
            emptyTree.reducersSourceCode),
        FsOp.writeFile emptyTree.sagasFilePath
          (foldSagaInjections authManifest.namespaces
            emptyTree.sagasSourceCode)] :=
  install_empty_modules_after_registry_writes envModulesEmpty "bundle"
    authManifest emptyTree ⟨[]⟩ rfl rfl rfl (fun p => rfl) (by decide) rfl

/-- C3: whichever of the three bundle groups is the first with zero listed
subdirectories, `installFromLocalDir` rejects with that group's
`... directory is empty` error, and every group processed before the empty
one remains copied: the whole trace is exactly the work done so far, and in
particular it contains the copy of every subdirectory of each earlier
group.  The three conjuncts cover an empty `modules/`, an empty `defaults/`
after a nonempty `modules/`, and an empty `docs/` after nonempty `modules/`
and `defaults/`. -/
theorem install_empty_group_rejection (env : Env) (dirPath : String)
    (meta : Manifest) (tree : ComponentTree)
    (hjson : env.readJson (pathJoin dirPath "structor-namespaces.json") =
      Except.ok meta)
    (hdeps : env.installDependencies meta.dependencies = Except.ok ())
    (htree : env.getComponentTree = Except.ok tree)
    (hex : ∀ p, env.isExisting p = Except.ok ()) :
    (∀ mfound, env.readDirectoryFlat (pathJoin dirPath "modules") =
        Except.ok mfound → mfound.dirs = [] →
      (installFromLocalDir env dirPath).result =
        Except.error "Modules directory is empty") ∧
    (∀ mfound dfound,
      env.readDirectoryFlat (pathJoin dirPath "modules") = Except.ok mfound →
      mfound.dirs ≠ [] →
      env.readDirectoryFlat (pathJoin dirPath "defaults") =
        Except.ok dfound →
      dfound.dirs = [] →
      (installFromLocalDir env dirPath).result =
        Except.error "Defaults directory is empty" ∧
      ∀ d ∈ mfound.dirs,
        FsOp.copyFile d.path
            (pathJoin (pathJoin env.appDirPath "modules") d.name) ∈
          (installFromLocalDir env dirPath).trace) ∧
    (∀ mfound dfound docfound,
      env.readDirectoryFlat (pathJoin dirPath "modules") = Except.ok mfound →
      mfound.dirs ≠ [] →
      env.readDirectoryFlat (pathJoin dirPath "defaults") =
        Except.ok dfound →
      dfound.dirs ≠ [] →
      env.readDirectoryFlat (pathJoin dirPath "docs") = Except.ok docfound →
      docfound.dirs = [] →
      (installFromLocalDir env dirPath).result =
        Except.error "Docs directory is empty" ∧
      (∀ d ∈ mfound.dirs,
        FsOp.copyFile d.path
            (pathJoin (pathJoin env.appDirPath "modules") d.name) ∈
          (installFromLocalDir env dirPath).trace) ∧
      (∀ d ∈ dfound.dirs,
        FsOp.copyFile d.path (pathJoin env.componentDefaultsDirPath d.name) ∈
          (installFromLocalDir env dirPath).trace)) := by
  refine ⟨?_, ?_, ?_⟩
  · intro mfound hmod hempty
    rw [install_modules_empty_eq env dirPath meta tree mfound hjson hdeps
      htree hex hmod hempty]
  · intro mfound dfound hmod hmne hdef hdempty
    rw [install_defaults_empty_eq env dirPath meta tree mfound dfound hjson
      hdeps htree hex hmod hmne hdef hdempty]
    refine ⟨rfl, ?_⟩
    intro d hd
    simp [copy_mem_groupCopyTrace (pathJoin env.appDirPath "modules")
      mfound.dirs d hd]
  · intro mfound dfound docfound hmod hmne hdef hdne hdoc hdocempty
    rw [install_docs_empty_eq env dirPath meta tree mfound dfound docfound
      hjson hdeps htree hex hmod hmne hdef hdne hdoc hdocempty]
    refine ⟨rfl, ?_, ?_⟩
    · intro d hd
      simp [copy_mem_groupCopyTrace (pathJoin env.appDirPath "modules")
        mfound.dirs d hd]
    · intro d hd
      simp [copy_mem_defaultsStageTrace env.componentDefaultsDirPath
        tree.indexFilePath dfound.dirs tree.indexSourceCode d hd]

/-- C3 witness: a bundle with a nonempty `modules/` group and an empty
`defaults/` group rejects with the defaults error while the modules copy
stays on the trace. -/
theorem install_empty_group_rejection_witness :
    (installFromLocalDir envDefaultsEmpty "bundle").result =
      Except.error "Defaults directory is empty" ∧
    ∀ d ∈ [authModulesDir],
      FsOp.copyFile d.path
          (pathJoin (pathJoin envDefaultsEmpty.appDirPath "modules")
            d.name) ∈
        (installFromLocalDir envDefaultsEmpty "bundle").trace :=
  (install_empty_group_rejection envDefaultsEmpty "bundle" authManifest
      emptyTree rfl rfl rfl (fun p => rfl)).2.1
    ⟨[authModulesDir]⟩ ⟨[]⟩ (by decide) (by decide) (by decide) rfl

theorem countFileWrites_append (p : String) (t1 t2 : List FsOp) :
    countFileWrites p (t1 ++ t2) =
      countFileWrites p t1 + countFileWrites p t2 := by
  induction t1 with
  | nil => simp [countFileWrites]
  | cons op rest ih =>
    cases op <;> simp [countFileWrites, ih]
    omega

theorem countFileWrites_groupCopyTrace (p destRootPath : String)
    (dirs : List DirEntry) :
    countFileWrites p (groupCopyTrace destRootPath dirs) = 0 := by
  induction dirs with
  | nil => rfl
  | cons d rest ih => simp [groupCopyTrace, countFileWrites, ih]

theorem countFileWrites_defaultsStageTrace (p destRootPath indexFilePath :
    String) (dirs : List DirEntry) (indexText : String) :
    countFileWrites p
        (defaultsStageTrace destRootPath indexFilePath dirs indexText) =
      if indexFilePath = p then dirs.length else 0 := by
  induction dirs generalizing indexText with
  | nil => simp [defaultsStageTrace, countFileWrites]
  | cons d rest ih =>
    by_cases hp : indexFilePath = p
    · subst hp
      simp [defaultsStageTrace, countFileWrites, ih]
      omega
    · simp [defaultsStageTrace, countFileWrites, ih, hp]

/-- C2: reducer and side-effect injection shapes.  First conjunct (every
environment): once the manifest is read, dependencies installed, the tree
read and all existence checks pass, the reducer registry text written is the
fold of exactly one `injectReducer` call per declared namespace with symbol
`reducerPropName`, derived identifier `reducerPropName ++ "Reducer"` and the
path `modules/<prop>/reducer.js`, and the side-effect registry text
written is the fold of exactly one `injectSaga` call per namespace with
derived identifier `prop ++ "Sagas"`, import path `modules/<prop>/sagas.js`
and no symbol name.  Second conjunct (the `auth` instance): the reducer
text written for namespace `auth` with `reducerPropName` `auth` contains
exactly one import referencing `modules/auth/reducer` and exactly one
registration entry mapping `auth` to `authReducer`, and the side-effect
text contains a registration referencing `authSagas` and exactly one
occurrence of `modules/auth/sagas`. -/
theorem install_injection_correctness :
    (∀ (env : Env) (dirPath : String) (meta : Manifest)
        (tree : ComponentTree),
      env.readJson (pathJoin dirPath "structor-namespaces.json") =
        Except.ok meta →
      env.installDependencies meta.dependencies = Except.ok () →
      env.getComponentTree = Except.ok tree →
      (∀ p, env.isExisting p = Except.ok ()) →
      ∃ rest, (installFromLocalDir env dirPath).trace =
        FsOp.writeFile tree.reducersFilePath
          (foldReducerInjections meta.namespaces tree.reducersSourceCode) ::
        FsOp.writeFile tree.sagasFilePath
          (foldSagaInjections meta.namespaces tree.sagasSourceCode) ::
        rest) ∧
    (FsOp.writeFile emptyTree.reducersFilePath authReducerText ∈
        (installFromLocalDir envInstallOk "bundle").trace ∧
      countFileWrites emptyTree.reducersFilePath
        (installFromLocalDir envInstallOk "bundle").trace = 1 ∧
      countOccurrences authReducerText "modules/auth/reducer" = 1 ∧
      countOccurrences authReducerText "auth: authReducer" = 1 ∧
      FsOp.writeFile emptyTree.sagasFilePath authSagasText ∈
        (installFromLocalDir envInstallOk "bundle").trace ∧
      countFileWrites emptyTree.sagasFilePath
        (installFromLocalDir envInstallOk "bundle").trace = 1 ∧
      countOccurrences authSagasText "modules/auth/sagas" = 1 ∧
      1 ≤ countOccurrences authSagasText "authSagas") := by
  constructor
  · intro env dirPath meta tree hjson hdeps htree hex
    unfold installFromLocalDir
    simp [hjson, hdeps, htree,
      runRewriteTasks_all_ok env (pathJoin dirPath "modules")
        (lastSagasFilePath (pathJoin dirPath "modules") meta.namespaces)
        meta.namespaces tree.reducersSourceCode tree.sagasSourceCode hex]
  · decide

/-- C2 witness: the first conjunct instantiated at the concrete `auth`
environment. -/
theorem install_injection_correctness_witness :
    ∃ rest, (installFromLocalDir envInstallOk "bundle").trace =
      FsOp.writeFile emptyTree.reducersFilePath
        (foldReducerInjections authManifest.namespaces
          emptyTree.reducersSourceCode) ::
      FsOp.writeFile emptyTree.sagasFilePath
        (foldSagaInjections authManifest.namespaces
          emptyTree.sagasSourceCode) ::
      rest :=
  install_injection_correctness.1 envInstallOk "bundle" authManifest
    emptyTree rfl rfl rfl (fun _ => rfl)

/-- C6 counterexample: in a successful install whose bundle has two
`defaults/` subdirectories, the component index — one of the aggregation
files targeted by injections — is written twice, not exactly once, so the
claim that every aggregation file is written back exactly once is false on
this run. -/
theorem install_index_double_write_counterexample :
    (installFromLocalDir envTwoDefaults "bundle").result = Except.ok () ∧
    countFileWrites emptyTree.indexFilePath
      (installFromLocalDir envTwoDefaults "bundle").trace = 2 ∧
    ¬ countFileWrites emptyTree.indexFilePath
      (installFromLocalDir envTwoDefaults "bundle").trace = 1 := by
  decide

/-- C6 (amended): in a successful run all injections targeting one
aggregation file are folded through a single in-memory accumulator, and the
reducer registry file and the side-effect registry file are each written
exactly once, only after every per-namespace injection has been applied
(the single write carries the complete fold); the component index, however,
is written once per `defaults/` subdirectory, each write carrying the
injections accumulated so far. -/
theorem install_registry_single_write (env : Env) (dirPath : String)
    (meta : Manifest) (tree : ComponentTree)
    (mfound dfound docfound : FoundFiles)
    (hjson : env.readJson (pathJoin dirPath "structor-namespaces.json") =
      Except.ok meta)
    (hdeps : env.installDependencies meta.dependencies = Except.ok ())
    (htree : env.getComponentTree = Except.ok tree)
    (hex : ∀ p, env.isExisting p = Except.ok ())
    (hmod : env.readDirectoryFlat (pathJoin dirPath "modules") =
      Except.ok mfound)
    (hmne : mfound.dirs ≠ [])
    (hdef : env.readDirectoryFlat (pathJoin dirPath "defaults") =
      Except.ok dfound)
    (hdne : dfound.dirs ≠ [])
    (hdoc : env.readDirectoryFlat (pathJoin dirPath "docs") =
      Except.ok docfound)
    (hdocne : docfound.dirs ≠ [])
    (hrs : tree.reducersFilePath ≠ tree.sagasFilePath)
    (hri : tree.reducersFilePath ≠ tree.indexFilePath)
    (hsi : tree.sagasFilePath ≠ tree.indexFilePath) :
    countFileWrites tree.reducersFilePath
      (installFromLocalDir env dirPath).trace = 1 ∧
    countFileWrites tree.sagasFilePath
      (installFromLocalDir env dirPath).trace = 1 ∧
    (∃ rest, (installFromLocalDir env dirPath).trace =
      FsOp.writeFile tree.reducersFilePath
        (foldReducerInjections meta.namespaces tree.reducersSourceCode) ::
      FsOp.writeFile tree.sagasFilePath
        (foldSagaInjections meta.namespaces tree.sagasSourceCode) ::
      rest) ∧
    countFileWrites tree.indexFilePath
      (installFromLocalDir env dirPath).trace = dfound.dirs.length := by
  rw [installFromLocalDir_success env dirPath meta tree mfound dfound
    docfound hjson hdeps htree hex hmod hmne hdef hdne hdoc hdocne]
  refine ⟨?_, ?_, ⟨_, rfl⟩, ?_⟩ <;>
    simp [countFileWrites, countFileWrites_append,
      countFileWrites_groupCopyTrace, countFileWrites_defaultsStageTrace,
      hrs, Ne.symm hrs, Ne.symm hri, Ne.symm hsi, hri, hsi]

/-- C6 (amended) witness: the single-namespace scenario writes the reducer
registry once, the saga registry once, and the index once (one defaults
subdirectory). -/
theorem install_registry_single_write_witness :
    countFileWrites emptyTree.reducersFilePath
      (installFromLocalDir envInstallOk "bundle").trace = 1 ∧
    countFileWrites emptyTree.sagasFilePath
      (installFromLocalDir envInstallOk "bundle").trace = 1 ∧
    (∃ rest, (installFromLocalDir envInstallOk "bundle").trace =
      FsOp.writeFile emptyTree.reducersFilePath
        (foldReducerInjections authManifest.namespaces
          emptyTree.reducersSourceCode) ::
      FsOp.writeFile emptyTree.sagasFilePath
        (foldSagaInjections authManifest.namespaces
          emptyTree.sagasSourceCode) ::
      rest) ∧
    countFileWrites emptyTree.indexFilePath
      (installFromLocalDir envInstallOk "bundle").trace =
        [authDefaultsDir].length :=
  install_registry_single_write envInstallOk "bundle" authManifest
    emptyTree ⟨[authModulesDir]⟩ ⟨[authDefaultsDir]⟩ ⟨[authDocsDir]⟩
    rfl rfl rfl (fun p => rfl) (by decide) (by decide) (by decide)
    (by decide) (by decide) (by decide) (by decide) (by decide) (by decide)

/-- C7: in a successful run, the `defaults` stage of the trace is exactly
`defaultsStageTrace`: for each listed defaults subdirectory in order, the
removal and copy to the component-defaults destination are immediately
followed by a write of the index file carrying the component-index
injection of that directory name (mapped to `modules/<name>`) folded onto
all previous injections — index updates are interleaved with the copy loop,
not deferred until after it. -/
theorem install_defaults_interleaved_index_writes (env : Env)
    (dirPath : String) (meta : Manifest) (tree : ComponentTree)
    (mfound dfound docfound : FoundFiles)
    (hjson : env.readJson (pathJoin dirPath "structor-namespaces.json") =
      Except.ok meta)
    (hdeps : env.installDependencies meta.dependencies = Except.ok ())
    (htree : env.getComponentTree = Except.ok tree)
    (hex : ∀ p, env.isExisting p = Except.ok ())
    (hmod : env.readDirectoryFlat (pathJoin dirPath "modules") =
      Except.ok mfound)
    (hmne : mfound.dirs ≠ [])
    (hdef : env.readDirectoryFlat (pathJoin dirPath "defaults") =
      Except.ok dfound)
    (hdne : dfound.dirs ≠ [])
    (hdoc : env.readDirectoryFlat (pathJoin dirPath "docs") =
      Except.ok docfound)
    (hdocne : docfound.dirs ≠ []) :
    (installFromLocalDir env dirPath).trace =
      FsOp.writeFile tree.reducersFilePath
        (foldReducerInjections meta.namespaces tree.reducersSourceCode) ::
      FsOp.writeFile tree.sagasFilePath
        (foldSagaInjections meta.namespaces tree.sagasSourceCode) ::
      (groupCopyTrace (pathJoin env.appDirPath "modules") mfound.dirs ++
        defaultsStageTrace env.componentDefaultsDirPath tree.indexFilePath
          dfound.dirs tree.indexSourceCode ++
        groupCopyTrace env.docsComponentsDirPath docfound.dirs) := by
  rw [installFromLocalDir_success env dirPath meta tree mfound dfound
    docfound hjson hdeps htree hex hmod hmne hdef hdne hdoc hdocne]

/-- C7 witness: the concrete single-namespace run, with the defaults
segment spelled out. -/
theorem install_defaults_interleaved_index_writes_witness :
    (installFromLocalDir envInstallOk "bundle").trace =
      FsOp.writeFile emptyTree.reducersFilePath
        (foldReducerInjections authManifest.namespaces
          emptyTree.reducersSourceCode) ::
      FsOp.writeFile emptyTree.sagasFilePath
        (foldSagaInjections authManifest.namespaces
          emptyTree.sagasSourceCode) ::
      (groupCopyTrace (pathJoin envInstallOk.appDirPath "modules")
          [authModulesDir] ++
        defaultsStageTrace envInstallOk.componentDefaultsDirPath
          emptyTree.indexFilePath [authDefaultsDir]
          emptyTree.indexSourceCode ++
        groupCopyTrace envInstallOk.docsComponentsDirPath [authDocsDir]) :=
  install_defaults_interleaved_index_writes envInstallOk "bundle"
    authManifest emptyTree ⟨[authModulesDir]⟩ ⟨[authDefaultsDir]⟩
    ⟨[authDocsDir]⟩ rfl rfl rfl (fun p => rfl) (by decide) (by decide)
    (by decide) (by decide) (by decide) (by decide)

end Structor
